import Mathlib

/-!
Shallow embedding of the sprinkler GPIO backend
(`pi-backend/main.py`): pin registry configuration, driver model,
the global mutable state (`pin_states`, `active_timers`), and the
API handlers `turn_pin_on`, `turn_pin_off`, `emergency_stop`,
`get_all_pins`, plus the auto-off timer body and controller
start-up seeding.  Handlers return a result together with the new
global state: an HTTPException aborts the handler but mutations
performed before the raise persist in the module-level dicts, and
the embedding reflects that.
-/

namespace Sprink

/-- Logical pin state, the `'on'`/`'off'` strings stored in `pin_states`. -/
inductive PinState
  | on
  | off
deriving DecidableEq, Repr

/-- One auto-off task: the `asyncio.Task` registered in `active_timers`.
`taskId` identifies the task object (so cancellation of a replaced task is
observable); `duration` is the minutes argument given to `auto_off_timer`. -/
structure Timer where
  taskId : Nat
  duration : Int
deriving DecidableEq, Repr

/-- The `PinControlResponse` pydantic model. -/
structure PinControlResponse where
  pin : Nat
  state : PinState
  success : Bool
  message : String
deriving DecidableEq, Repr

/-- The `PinStatus` pydantic model returned by `get_all_pins`. -/
structure PinStatus where
  id : Nat
  name : String
  enabled : Bool
  state : PinState
deriving DecidableEq, Repr

/-- HTTPExceptions raised by the handlers.  `NotFound` is 404,
`Forbidden` is 403, `DriverError` is the 500 "Failed to control GPIO pin". -/
inductive ApiError
  | NotFound
  | Forbidden
  | DriverError
deriving DecidableEq, Repr

/-- Module-level configuration: `GPIO_PINS` (ordered, defines zones) and
`DENIED_PINS`. -/
structure Config where
  GPIO_PINS : List Nat
  DENIED_PINS : List Nat
deriving DecidableEq, Repr

/-- The concrete constants of `main.py`. -/
def defaultConfig : Config :=
  { GPIO_PINS := [12, 16, 20, 21, 26, 19, 13, 6, 5, 11, 9, 10, 22, 27, 17, 4]
  , DENIED_PINS := [2, 3, 14, 15, 18] }

/-- Environment of the driver: whether the `pigpio` import succeeded
(`has_pigpio`), whether `pigpio.pi().connected` held at start-up
(`daemon_connected`), and whether a given `pi.write(pin, level)` call
succeeds rather than raising (`writeOk`). -/
structure Driver where
  has_pigpio : Bool
  daemon_connected : Bool
  writeOk : Nat → Bool → Bool

/-- The condition `self.pi and self.connected` tested by `set_pin` after a
non-exceptional start-up: `self.connected` is true exactly when pigpio was
importable and the daemon connection succeeded. -/
def Driver.connected (d : Driver) : Bool :=
  d.has_pigpio && d.daemon_connected

/-- The module-level mutable state: the `pin_states` dict, the
`active_timers` dict, the set of task ids on which `.cancel()` was called
(a cancelled task's post-sleep body never runs), the sequence of physical
`pi.write` calls attempted, and a counter supplying fresh task ids. -/
structure SState where
  pin_states : List (Nat × PinState)
  active_timers : List (Nat × Timer)
  cancelled : List Nat
  driver_log : List (Nat × Bool)
  nextId : Nat
deriving DecidableEq, Repr

/-- The state with both dicts empty, as at module import time. -/
def emptyState : SState :=
  { pin_states := [], active_timers := [], cancelled := [], driver_log := [], nextId := 0 }

/-! ### Association-list model of the Python dicts -/

/-- `m[k]` lookup in a dict modelled as an association list. -/
def lookupA {α : Type} : List (Nat × α) → Nat → Option α
  | [], _ => none
  | e :: m, k => if e.1 = k then some e.2 else lookupA m k

/-- `del m[k]` (a no-op when `k` is absent). -/
def eraseA {α : Type} : List (Nat × α) → Nat → List (Nat × α)
  | [], _ => []
  | e :: m, k => if e.1 = k then eraseA m k else e :: eraseA m k

/-- `m[k] = v`: any existing binding for `k` is replaced. -/
def insertA {α : Type} (m : List (Nat × α)) (k : Nat) (v : α) : List (Nat × α) :=
  eraseA m k ++ [(k, v)]

theorem lookupA_eraseA {α : Type} (m : List (Nat × α)) (k p : Nat) :
    lookupA (eraseA m k) p = if p = k then none else lookupA m p := by
  induction m with
  | nil => simp [lookupA, eraseA]
  | cons e m ih =>
      by_cases hek : e.1 = k
      · by_cases h : p = k
        · subst h
          simp [eraseA, hek, ih]
        · have hkp : ¬k = p := fun hh => h hh.symm
          simp [lookupA, eraseA, hek, h, hkp, ih]
      · by_cases hep : e.1 = p
        · have : ¬p = k := fun h => hek (hep.trans h)
          simp [lookupA, eraseA, hek, hep, this]
        · simp [lookupA, eraseA, hek, hep, ih]

theorem lookupA_append {α : Type} (m n : List (Nat × α)) (p : Nat) :
    lookupA (m ++ n) p = (lookupA m p).or (lookupA n p) := by
  induction m with
  | nil => simp [lookupA]
  | cons e m ih =>
      by_cases h : e.1 = p <;> simp [lookupA, h, ih]

theorem lookupA_insertA {α : Type} (m : List (Nat × α)) (k p : Nat) (v : α) :
    lookupA (insertA m k v) p = if p = k then some v else lookupA m p := by
  unfold insertA
  rw [lookupA_append, lookupA_eraseA]
  by_cases h : p = k
  · simp [lookupA, h]
  · have : ¬k = p := fun hh => h hh.symm
    simp [lookupA, h, this]

/-! ### GPIOController methods -/

/-- `get_pin_state`: `pin_states.get(pin, 'off')`. -/
def get_pin_state (s : SState) (pin : Nat) : PinState :=
  (lookupA s.pin_states pin).getD PinState.off

/-- Body of `set_pin` after the membership guard has passed.  With the
backend connected, `pi.write` is attempted (recorded in `driver_log`); on
success the state dict is updated and `True` returned, on an exception
nothing is recorded and `False` returned.  Without a connected backend the
simulation branch updates the dict and always returns `True`. -/
def set_pin_core (drv : Driver) (s : SState) (pin : Nat) (level : Bool) :
    Bool × SState :=
  if drv.connected then
    if drv.writeOk pin level then
      (true, { s with
        pin_states := insertA s.pin_states pin (if level then PinState.on else PinState.off)
        driver_log := s.driver_log ++ [(pin, level)] })
    else
      (false, { s with driver_log := s.driver_log ++ [(pin, level)] })
  else
    (true, { s with
      pin_states := insertA s.pin_states pin (if level then PinState.on else PinState.off) })

/-- `set_pin`: raises `ValueError` (modelled `none`) when the pin is not in
`GPIO_PINS`, otherwise runs the body. -/
def set_pin (cfg : Config) (drv : Driver) (s : SState) (pin : Nat) (level : Bool) :
    Option (Bool × SState) :=
  if pin ∈ cfg.GPIO_PINS then some (set_pin_core drv s pin level) else none

/-- Seeding loop of controller start-up: `pin_states[pin] = 'off'` for each
configured pin. -/
def seedOff (pins : List Nat) (m : List (Nat × PinState)) : List (Nat × PinState) :=
  pins.foldl (fun acc p => insertA acc p PinState.off) m

/-- Seeding loop of the connected branch of start-up: per configured pin,
`pi.write(pin, 0)` (a physical write, recorded in the log) and then
`pin_states[pin] = 'off'`.  A raising write is caught by the `except`
around the whole branch, which aborts the loop: the failing pin and all
later pins are left unseeded, while the earlier pins keep their entries.
Returns the seeded dict together with the attempted writes. -/
def initLoop (drv : Driver) : List Nat → List (Nat × PinState) → List (Nat × Bool) →
    List (Nat × PinState) × List (Nat × Bool)
  | [], m, log => (m, log)
  | pin :: rest, m, log =>
      if drv.writeOk pin false then
        initLoop drv rest (insertA m pin PinState.off) (log ++ [(pin, false)])
      else
        (m, log ++ [(pin, false)])

/-- Start-up (`GPIOController`): when pigpio is importable and the daemon
connects, `self.connected` is set and the seeding loop runs (aborted by the
first raising write, the exception being swallowed after the loop); when
pigpio is importable but the daemon does not connect, nothing is seeded;
without pigpio the simulation branch seeds every pin `off` with no physical
writes. -/
def initState (cfg : Config) (drv : Driver) : SState :=
  if drv.has_pigpio then
    if drv.daemon_connected then
      { emptyState with
        pin_states := (initLoop drv cfg.GPIO_PINS [] []).1
        driver_log := (initLoop drv cfg.GPIO_PINS [] []).2 }
    else
      emptyState
  else
    { emptyState with pin_states := seedOff cfg.GPIO_PINS [] }

/-! ### Handlers -/

/-- The `if pin in active_timers: active_timers[pin].cancel(); del
active_timers[pin]` prologue shared by `turn_pin_on` and `turn_pin_off`. -/
def cancel_existing_timer (s : SState) (pin : Nat) : SState :=
  match lookupA s.active_timers pin with
  | some t =>
      { s with
        active_timers := eraseA s.active_timers pin
        cancelled := s.cancelled ++ [t.taskId] }
  | none => s

/-- `request.duration if request.duration and request.duration > 0 else 10`
(Python truthiness: `None` and `0` are falsy, so any absent, zero or
negative value yields the default 10). -/
def normalizeDuration (d : Option Int) : Int :=
  match d with
  | some v => if 0 < v then v else 10
  | none => 10

/-- `POST /api/pin/{pin}/on`.  Returns the response (or the raised
HTTPException) together with the global state as left by the handler. -/
def turn_pin_on (cfg : Config) (drv : Driver) (s : SState) (pin : Nat)
    (reqDuration : Option Int) : Except ApiError PinControlResponse × SState :=
  if pin ∉ cfg.GPIO_PINS then
    (Except.error ApiError.NotFound, s)
  else if pin ∈ cfg.DENIED_PINS then
    (Except.error ApiError.Forbidden, s)
  else
    let s1 := cancel_existing_timer s pin
    let r := set_pin_core drv s1 pin true
    if r.1 then
      let duration := normalizeDuration reqDuration
      let t : Timer := { taskId := r.2.nextId, duration := duration }
      let s3 := { r.2 with
        active_timers := insertA r.2.active_timers pin t
        nextId := r.2.nextId + 1 }
      (Except.ok
        { pin := pin, state := PinState.on, success := true
        , message := "Pin " ++ toString pin ++ " turned on for " ++
            toString duration ++ " minutes" }, s3)
    else
      (Except.error ApiError.DriverError, r.2)

/-- `POST /api/pin/{pin}/off`. -/
def turn_pin_off (cfg : Config) (drv : Driver) (s : SState) (pin : Nat) :
    Except ApiError PinControlResponse × SState :=
  if pin ∉ cfg.GPIO_PINS then
    (Except.error ApiError.NotFound, s)
  else
    let s1 := cancel_existing_timer s pin
    let r := set_pin_core drv s1 pin false
    if r.1 then
      (Except.ok
        { pin := pin, state := PinState.off, success := true
        , message := "Pin " ++ toString pin ++ " turned off" }, r.2)
    else
      (Except.error ApiError.DriverError, r.2)

/-- Post-sleep body of `auto_off_timer` when the task was not cancelled:
`gpio.set_pin(pin, False)` with the return value ignored, then the timer is
removed from `active_timers` if present.  A `ValueError` from `set_pin` (pin
outside `GPIO_PINS`) would propagate out of the task before any mutation. -/
def auto_off_fire (cfg : Config) (drv : Driver) (s : SState) (pin : Nat) : SState :=
  match set_pin cfg drv s pin false with
  | none => s
  | some r => { r.2 with active_timers := eraseA r.2.active_timers pin }

/-- One iteration of the emergency-stop sweep over `GPIO_PINS`: pins whose
recorded state is `'on'` get a `set_pin(pin, False)` call and are appended to
`stopped_pins` whatever the call returned.  Every swept pin is in
`GPIO_PINS`, so `set_pin`'s `ValueError` branch is unreachable here. -/
def estop_step (drv : Driver) (acc : List Nat × SState) (pin : Nat) :
    List Nat × SState :=
  if get_pin_state acc.2 pin = PinState.on then
    (acc.1 ++ [pin], (set_pin_core drv acc.2 pin false).2)
  else
    acc

/-- `POST /api/emergency-stop`: cancel every task in `active_timers`, clear
the dict, then sweep `GPIO_PINS` turning off the pins recorded `'on'`.
Returns the `stopped_pins` list and the final state. -/
def emergency_stop (cfg : Config) (drv : Driver) (s : SState) :
    List Nat × SState :=
  let s1 := { s with
    cancelled := s.cancelled ++ s.active_timers.map (fun e => e.2.taskId)
    active_timers := [] }
  cfg.GPIO_PINS.foldl (estop_step drv) ([], s1)

/-- Indexed body of `get_all_pins`'s `for i, pin in enumerate(GPIO_PINS)`
loop. -/
def get_all_pins_from (cfg : Config) (s : SState) : Nat → List Nat → List PinStatus
  | _, [] => []
  | i, pin :: rest =>
      { id := pin
      , name := "Zone " ++ toString (i + 1)
      , enabled := !(cfg.DENIED_PINS.contains pin)
      , state := get_pin_state s pin } :: get_all_pins_from cfg s (i + 1) rest

/-- `GET /api/pins` (`GPIOController.get_all_pins`). -/
def get_all_pins (cfg : Config) (s : SState) : List PinStatus :=
  get_all_pins_from cfg s 0 cfg.GPIO_PINS

/-- Every key of the `pin_states` dict lies in `GPIO_PINS`. -/
def statesOnlyControllable (cfg : Config) (s : SState) : Prop :=
  ∀ p v, lookupA s.pin_states p = some v → p ∈ cfg.GPIO_PINS

/-! ### Concrete environments and states used to evaluate the theorems -/

/-- Simulation environment: pigpio import failed, every call succeeds. -/
def simDriver : Driver :=
  { has_pigpio := false, daemon_connected := false, writeOk := fun _ _ => true }

/-- pigpio importable but the daemon connection failed at start-up. -/
def noSeedDriver : Driver :=
  { has_pigpio := true, daemon_connected := false, writeOk := fun _ _ => true }

/-- Connected hardware on which every write succeeds. -/
def hwDriver : Driver :=
  { has_pigpio := true, daemon_connected := true, writeOk := fun _ _ => true }

/-- Connected hardware whose `pi.write` raises exactly for one pin/level
combination. -/
def failDriver (badPin : Nat) (badLevel : Bool) : Driver :=
  { has_pigpio := true, daemon_connected := true
  , writeOk := fun p level => !(p == badPin && level == badLevel) }

/-- A registry in which pin 7 is both controllable and denied. -/
def testConfig : Config := { GPIO_PINS := [7, 8], DENIED_PINS := [7] }

/-- Pins 12 and 16 on, one live timer on pin 12. -/
def stateTwoOn : SState :=
  { pin_states := [(12, PinState.on), (16, PinState.on)]
  , active_timers := [(12, { taskId := 0, duration := 5 })]
  , cancelled := [], driver_log := [], nextId := 1 }

/-- Pin 12 off with a live timer on pin 12. -/
def stateTimer12 : SState :=
  { pin_states := [(12, PinState.off)]
  , active_timers := [(12, { taskId := 0, duration := 5 })]
  , cancelled := [], driver_log := [], nextId := 1 }

/-- Pin 12 on with a live timer on pin 12. -/
def stateOn12 : SState :=
  { pin_states := [(12, PinState.on)]
  , active_timers := [(12, { taskId := 0, duration := 5 })]
  , cancelled := [], driver_log := [], nextId := 1 }

/-! ### Helper lemmas -/

theorem eraseA_of_lookupA_none {α : Type} (m : List (Nat × α)) (k : Nat)
    (h : lookupA m k = none) : eraseA m k = m := by
  induction m with
  | nil => rfl
  | cons e m ih =>
      by_cases hek : e.1 = k
      · simp [lookupA, hek] at h
      · simp only [lookupA, hek, if_neg hek] at h
        simp [eraseA, hek, ih h]

theorem set_pin_core_fst (drv : Driver) (s : SState) (pin : Nat) (level : Bool)
    (h : drv.connected = true → drv.writeOk pin level = true) :
    (set_pin_core drv s pin level).1 = true := by
  unfold set_pin_core
  by_cases hc : drv.connected = true
  · simp [hc, h hc]
  · simp [hc]

theorem set_pin_core_states_of_true (drv : Driver) (s : SState) (pin : Nat) (level : Bool)
    (h : (set_pin_core drv s pin level).1 = true) :
    (set_pin_core drv s pin level).2.pin_states =
      insertA s.pin_states pin (if level then PinState.on else PinState.off) := by
  unfold set_pin_core at h ⊢
  by_cases hc : drv.connected = true
  · by_cases hw : drv.writeOk pin level = true
    · simp [hc, hw]
    · simp [hc, hw] at h
  · simp [hc]

theorem set_pin_core_states_of_false (drv : Driver) (s : SState) (pin : Nat) (level : Bool)
    (h : (set_pin_core drv s pin level).1 = false) :
    (set_pin_core drv s pin level).2.pin_states = s.pin_states := by
  unfold set_pin_core at h ⊢
  by_cases hc : drv.connected = true
  · by_cases hw : drv.writeOk pin level = true
    · simp [hc, hw] at h
    · simp [hc, hw]
  · simp [hc] at h

theorem set_pin_core_timers (drv : Driver) (s : SState) (pin : Nat) (level : Bool) :
    (set_pin_core drv s pin level).2.active_timers = s.active_timers := by
  unfold set_pin_core
  by_cases hc : drv.connected = true
  · by_cases hw : drv.writeOk pin level = true <;> simp [hc, hw]
  · simp [hc]

theorem set_pin_core_cancelled (drv : Driver) (s : SState) (pin : Nat) (level : Bool) :
    (set_pin_core drv s pin level).2.cancelled = s.cancelled := by
  unfold set_pin_core
  by_cases hc : drv.connected = true
  · by_cases hw : drv.writeOk pin level = true <;> simp [hc, hw]
  · simp [hc]

theorem set_pin_core_nextId (drv : Driver) (s : SState) (pin : Nat) (level : Bool) :
    (set_pin_core drv s pin level).2.nextId = s.nextId := by
  unfold set_pin_core
  by_cases hc : drv.connected = true
  · by_cases hw : drv.writeOk pin level = true <;> simp [hc, hw]
  · simp [hc]

theorem set_pin_core_fail (drv : Driver) (s : SState) (pin : Nat) (level : Bool)
    (hc : drv.connected = true) (hw : drv.writeOk pin level = false) :
    set_pin_core drv s pin level =
      (false, { s with driver_log := s.driver_log ++ [(pin, level)] }) := by
  unfold set_pin_core
  simp [hc, hw]

theorem set_pin_core_states_lookup (drv : Driver) (s : SState) (pin p : Nat) (level : Bool)
    (hne : p ≠ pin) :
    lookupA (set_pin_core drv s pin level).2.pin_states p = lookupA s.pin_states p := by
  by_cases h : (set_pin_core drv s pin level).1 = true
  · rw [set_pin_core_states_of_true drv s pin level h, lookupA_insertA]
    simp [hne]
  · rw [set_pin_core_states_of_false drv s pin level (by simpa using h)]

theorem cancel_existing_timer_states (s : SState) (pin : Nat) :
    (cancel_existing_timer s pin).pin_states = s.pin_states := by
  unfold cancel_existing_timer
  cases lookupA s.active_timers pin <;> simp

theorem cancel_existing_timer_timers (s : SState) (pin : Nat) :
    (cancel_existing_timer s pin).active_timers = eraseA s.active_timers pin := by
  unfold cancel_existing_timer
  cases h : lookupA s.active_timers pin with
  | none => simp [eraseA_of_lookupA_none _ _ h]
  | some t => simp

theorem cancel_existing_timer_nextId (s : SState) (pin : Nat) :
    (cancel_existing_timer s pin).nextId = s.nextId := by
  unfold cancel_existing_timer
  cases lookupA s.active_timers pin <;> simp

theorem cancel_existing_timer_log (s : SState) (pin : Nat) :
    (cancel_existing_timer s pin).driver_log = s.driver_log := by
  unfold cancel_existing_timer
  cases lookupA s.active_timers pin <;> simp

theorem cancel_existing_timer_cancelled_of_some (s : SState) (pin : Nat) (t : Timer)
    (h : lookupA s.active_timers pin = some t) :
    (cancel_existing_timer s pin).cancelled = s.cancelled ++ [t.taskId] := by
  unfold cancel_existing_timer
  rw [h]

/-- Successful-activation equation: with the pin controllable, not denied,
and the driver write succeeding, `turn_pin_on` returns the success response
and installs a fresh timer carrying the normalized duration. -/
theorem turn_pin_on_success_eq (cfg : Config) (drv : Driver) (s : SState) (pin : Nat)
    (d : Option Int) (h1 : pin ∈ cfg.GPIO_PINS) (h2 : pin ∉ cfg.DENIED_PINS)
    (hok : (set_pin_core drv (cancel_existing_timer s pin) pin true).1 = true) :
    turn_pin_on cfg drv s pin d =
      (Except.ok
        { pin := pin, state := PinState.on, success := true
        , message := "Pin " ++ toString pin ++ " turned on for " ++
            toString (normalizeDuration d) ++ " minutes" },
       { (set_pin_core drv (cancel_existing_timer s pin) pin true).2 with
         active_timers :=
           insertA (set_pin_core drv (cancel_existing_timer s pin) pin true).2.active_timers
             pin
             { taskId := (set_pin_core drv (cancel_existing_timer s pin) pin true).2.nextId
             , duration := normalizeDuration d }
         nextId := (set_pin_core drv (cancel_existing_timer s pin) pin true).2.nextId + 1 }) := by
  unfold turn_pin_on
  simp [h1, h2, hok]

/-- Failed-activation equation: the driver write fails, so `turn_pin_on`
raises the 500 and leaves the state as produced by the timer-cancellation
prologue plus the logged write attempt. -/
theorem turn_pin_on_fail_eq (cfg : Config) (drv : Driver) (s : SState) (pin : Nat)
    (d : Option Int) (h1 : pin ∈ cfg.GPIO_PINS) (h2 : pin ∉ cfg.DENIED_PINS)
    (hc : drv.connected = true) (hw : drv.writeOk pin true = false) :
    turn_pin_on cfg drv s pin d =
      (Except.error ApiError.DriverError,
       { cancel_existing_timer s pin with
         driver_log := (cancel_existing_timer s pin).driver_log ++ [(pin, true)] }) := by
  unfold turn_pin_on
  simp [h1, h2, set_pin_core_fail drv (cancel_existing_timer s pin) pin true hc hw]

/-- Successful-deactivation equation. -/
theorem turn_pin_off_success_eq (cfg : Config) (drv : Driver) (s : SState) (pin : Nat)
    (h1 : pin ∈ cfg.GPIO_PINS)
    (hok : (set_pin_core drv (cancel_existing_timer s pin) pin false).1 = true) :
    turn_pin_off cfg drv s pin =
      (Except.ok
        { pin := pin, state := PinState.off, success := true
        , message := "Pin " ++ toString pin ++ " turned off" },
       (set_pin_core drv (cancel_existing_timer s pin) pin false).2) := by
  unfold turn_pin_off
  simp [h1, hok]

theorem lookupA_seedOff (l : List Nat) (m : List (Nat × PinState)) (p : Nat) :
    lookupA (seedOff l m) p = if p ∈ l then some PinState.off else lookupA m p := by
  induction l generalizing m with
  | nil => simp [seedOff]
  | cons a l ih =>
      show lookupA (seedOff l (insertA m a PinState.off)) p = _
      rw [ih, lookupA_insertA]
      by_cases hl : p ∈ l
      · simp [hl]
      · by_cases ha : p = a
        · simp [hl, ha]
        · simp [hl, ha]

/-- Every binding produced by the seeding loop is `off` (or was already in
the accumulator). -/
theorem initLoop_lookup (drv : Driver) :
    ∀ (l : List Nat) (m : List (Nat × PinState)) (log : List (Nat × Bool)) (p : Nat),
      lookupA (initLoop drv l m log).1 p = some PinState.off ∨
      lookupA (initLoop drv l m log).1 p = lookupA m p := by
  intro l
  induction l with
  | nil => intro m log p; right; rfl
  | cons a l ih =>
      intro m log p
      unfold initLoop
      by_cases hw : drv.writeOk a false = true
      · rw [if_pos hw]
        rcases ih (insertA m a PinState.off) (log ++ [(a, false)]) p with h | h
        · left; exact h
        · rw [h, lookupA_insertA]
          by_cases hp : p = a
          · left; rw [if_pos hp]
          · right; rw [if_neg hp]
      · rw [if_neg hw]
        right; rfl

/-- When no seeding write raises, the loop seeds every configured pin. -/
theorem initLoop_all_ok (drv : Driver) :
    ∀ (l : List Nat), (∀ p ∈ l, drv.writeOk p false = true) →
      ∀ (m : List (Nat × PinState)) (log : List (Nat × Bool)),
        (initLoop drv l m log).1 = seedOff l m := by
  intro l
  induction l with
  | nil => intro _ m log; rfl
  | cons a l ih =>
      intro h m log
      unfold initLoop
      rw [if_pos (h a (List.mem_cons_self a l))]
      exact ih (fun p hp => h p (List.mem_cons_of_mem a hp))
        (insertA m a PinState.off) (log ++ [(a, false)])

/-- Keys bound by the seeding loop come from the swept list (or the
accumulator). -/
theorem initLoop_mem (drv : Driver) :
    ∀ (l : List Nat) (m : List (Nat × PinState)) (log : List (Nat × Bool))
      (p : Nat) (v : PinState),
      lookupA (initLoop drv l m log).1 p = some v → p ∈ l ∨ lookupA m p = some v := by
  intro l
  induction l with
  | nil => intro m log p v h; right; exact h
  | cons a l ih =>
      intro m log p v h
      unfold initLoop at h
      by_cases hw : drv.writeOk a false = true
      · rw [if_pos hw] at h
        rcases ih (insertA m a PinState.off) (log ++ [(a, false)]) p v h with h' | h'
        · left; exact List.mem_cons_of_mem a h'
        · rw [lookupA_insertA] at h'
          by_cases hp : p = a
          · left; rw [hp]; exact List.mem_cons_self a l
          · right; rw [if_neg hp] at h'; exact h'
      · rw [if_neg hw] at h
        right; exact h

theorem get_pin_state_initState (cfg : Config) (drv : Driver) (pin : Nat) :
    get_pin_state (initState cfg drv) pin = PinState.off := by
  unfold initState get_pin_state
  by_cases hp : drv.has_pigpio = true
  · by_cases hd : drv.daemon_connected = true
    · rw [if_pos hp, if_pos hd]
      show (lookupA (initLoop drv cfg.GPIO_PINS [] []).1 pin).getD PinState.off =
        PinState.off
      rcases initLoop_lookup drv cfg.GPIO_PINS [] [] pin with h | h
      · rw [h]
        rfl
      · rw [h]
        rfl
    · rw [if_pos hp, if_neg hd]
      rfl
  · rw [if_neg hp]
    show (lookupA (seedOff cfg.GPIO_PINS []) pin).getD PinState.off = PinState.off
    rw [lookupA_seedOff]
    by_cases h : pin ∈ cfg.GPIO_PINS
    · rw [if_pos h]
      rfl
    · rw [if_neg h]
      rfl

theorem initState_states_of_seeded (cfg : Config) (drv : Driver)
    (h : drv.has_pigpio = false ∨
      (drv.daemon_connected = true ∧ ∀ p ∈ cfg.GPIO_PINS, drv.writeOk p false = true)) :
    (initState cfg drv).pin_states = seedOff cfg.GPIO_PINS [] := by
  unfold initState
  rcases h with h | ⟨hd, hw⟩
  · rw [if_neg (fun hh : drv.has_pigpio = true => by rw [h] at hh; exact absurd hh (by decide))]
  · by_cases hp : drv.has_pigpio = true
    · rw [if_pos hp, if_pos hd]
      show (initLoop drv cfg.GPIO_PINS [] []).1 = _
      exact initLoop_all_ok drv cfg.GPIO_PINS hw [] []
    · rw [if_neg hp]

theorem length_get_all_pins_from (cfg : Config) (s : SState) (i : Nat) (l : List Nat) :
    (get_all_pins_from cfg s i l).length = l.length := by
  induction l generalizing i with
  | nil => rfl
  | cons a l ih => simp [get_all_pins_from, ih]

theorem get?_get_all_pins_from (cfg : Config) (s : SState) (l : List Nat) (i j : Nat) :
    (get_all_pins_from cfg s i l).get? j =
      (l.get? j).map (fun pin =>
        { id := pin
        , name := "Zone " ++ toString (i + j + 1)
        , enabled := !(cfg.DENIED_PINS.contains pin)
        , state := get_pin_state s pin }) := by
  induction l generalizing i j with
  | nil => simp [get_all_pins_from]
  | cons a l ih =>
      cases j with
      | zero => simp [get_all_pins_from]
      | succ j =>
          simp only [get_all_pins_from, List.get?]
          rw [ih]
          have : i + 1 + j = i + (j + 1) := by omega
          rw [this]

theorem set_pin_core_get_of_false (drv : Driver) (s : SState) (pin : Nat) (level : Bool)
    (h : (set_pin_core drv s pin level).1 = false) (p : Nat) :
    get_pin_state (set_pin_core drv s pin level).2 p = get_pin_state s p := by
  unfold get_pin_state
  rw [set_pin_core_states_of_false drv s pin level h]

theorem estop_step_timers (drv : Driver) (acc : List Nat × SState) (pin : Nat) :
    (estop_step drv acc pin).2.active_timers = acc.2.active_timers := by
  unfold estop_step
  by_cases h : get_pin_state acc.2 pin = PinState.on <;>
    simp [h, set_pin_core_timers]

theorem estop_step_cancelled (drv : Driver) (acc : List Nat × SState) (pin : Nat) :
    (estop_step drv acc pin).2.cancelled = acc.2.cancelled := by
  unfold estop_step
  by_cases h : get_pin_state acc.2 pin = PinState.on <;>
    simp [h, set_pin_core_cancelled]

theorem estop_step_get_other (drv : Driver) (acc : List Nat × SState) (pin p : Nat)
    (hne : p ≠ pin) :
    get_pin_state (estop_step drv acc pin).2 p = get_pin_state acc.2 p := by
  unfold estop_step
  by_cases h : get_pin_state acc.2 pin = PinState.on
  · rw [if_pos h]
    unfold get_pin_state
    rw [set_pin_core_states_lookup drv acc.2 pin p false hne]
  · rw [if_neg h]

theorem estop_foldl_timers (drv : Driver) (l : List Nat) (acc : List Nat × SState) :
    (l.foldl (estop_step drv) acc).2.active_timers = acc.2.active_timers := by
  induction l generalizing acc with
  | nil => rfl
  | cons a l ih => rw [List.foldl_cons, ih, estop_step_timers]

theorem estop_foldl_cancelled (drv : Driver) (l : List Nat) (acc : List Nat × SState) :
    (l.foldl (estop_step drv) acc).2.cancelled = acc.2.cancelled := by
  induction l generalizing acc with
  | nil => rfl
  | cons a l ih => rw [List.foldl_cons, ih, estop_step_cancelled]

theorem estop_foldl_get_notmem (drv : Driver) (l : List Nat) (acc : List Nat × SState)
    (p : Nat) (hp : p ∉ l) :
    get_pin_state (l.foldl (estop_step drv) acc).2 p = get_pin_state acc.2 p := by
  induction l generalizing acc with
  | nil => rfl
  | cons a l ih =>
      have hpa : p ≠ a := fun h => hp (h ▸ List.mem_cons_self a l)
      have hpl : p ∉ l := fun h => hp (List.mem_cons_of_mem a h)
      rw [List.foldl_cons, ih _ hpl, estop_step_get_other drv acc a p hpa]

/-- The sweep appends exactly the pins recorded `'on'` at sweep start (with
respect to the accumulator's state), in list order, when the swept pins are
distinct. -/
theorem estop_foldl_fst (drv : Driver) :
    ∀ (l : List Nat), l.Nodup → ∀ (stopped : List Nat) (st : SState),
      (l.foldl (estop_step drv) (stopped, st)).1 =
        stopped ++ l.filter (fun p => decide (get_pin_state st p = PinState.on)) := by
  intro l
  induction l with
  | nil => intro _ stopped st; simp
  | cons a l ih =>
      intro hl stopped st
      have ha : a ∉ l := (List.nodup_cons.mp hl).1
      have hl' : l.Nodup := (List.nodup_cons.mp hl).2
      rw [List.foldl_cons]
      by_cases h : get_pin_state st a = PinState.on
      · have hstep : estop_step drv (stopped, st) a =
            (stopped ++ [a], (set_pin_core drv st a false).2) := by
          unfold estop_step
          rw [if_pos h]
        rw [hstep, ih hl']
        have hfilter :
            l.filter (fun p =>
              decide (get_pin_state (set_pin_core drv st a false).2 p = PinState.on)) =
            l.filter (fun p => decide (get_pin_state st p = PinState.on)) := by
          apply List.filter_congr
          intro x hx
          have hxa : x ≠ a := fun hxa => ha (hxa ▸ hx)
          unfold get_pin_state
          rw [set_pin_core_states_lookup drv st a x false hxa]
        rw [hfilter]
        simp [h]
      · have hstep : estop_step drv (stopped, st) a = (stopped, st) := by
          unfold estop_step
          rw [if_neg h]
        rw [hstep, ih hl']
        simp [h]

/-- A pin that is on at sweep start and whose driver write fails stays
recorded `'on'` after the sweep. -/
theorem estop_foldl_fail_on (drv : Driver) (hc : drv.connected = true) :
    ∀ (l : List Nat), l.Nodup → ∀ (stopped : List Nat) (st : SState) (p : Nat),
      p ∈ l → get_pin_state st p = PinState.on → drv.writeOk p false = false →
      get_pin_state (l.foldl (estop_step drv) (stopped, st)).2 p = PinState.on := by
  intro l
  induction l with
  | nil => intro _ _ _ p hp; exact absurd hp (List.not_mem_nil p)
  | cons a l ih =>
      intro hl stopped st p hp hon hw
      have ha : a ∉ l := (List.nodup_cons.mp hl).1
      have hl' : l.Nodup := (List.nodup_cons.mp hl).2
      rw [List.foldl_cons]
      by_cases hpa : p = a
      · subst hpa
        have hf : (set_pin_core drv st p false).1 = false := by
          rw [set_pin_core_fail drv st p false hc hw]
        have h2 : get_pin_state (estop_step drv (stopped, st) p).2 p = PinState.on := by
          unfold estop_step
          rw [if_pos hon]
          rw [set_pin_core_get_of_false drv st p false hf p]
          exact hon
        rw [estop_foldl_get_notmem drv l (estop_step drv (stopped, st) p) p ha]
        exact h2
      · have hp' : p ∈ l := by
          rcases List.mem_cons.mp hp with h | h
          · exact absurd h hpa
          · exact h
        rcases hstep : estop_step drv (stopped, st) a with ⟨stp, st1⟩
        have h2 : get_pin_state st1 p = PinState.on := by
          have := estop_step_get_other drv (stopped, st) a p hpa
          rw [hstep] at this
          rw [this]
          exact hon
        exact ih hl' stp st1 p hp' h2 hw

theorem filter_key_eraseA {α : Type} (m : List (Nat × α)) (k : Nat) :
    (eraseA m k).filter (fun e => decide (e.1 = k)) = [] := by
  induction m with
  | nil => rfl
  | cons e m ih =>
      by_cases hek : e.1 = k <;> simp [eraseA, hek, ih]

/-- After a dict assignment there is exactly one binding for the key. -/
theorem filter_key_insertA {α : Type} (m : List (Nat × α)) (k : Nat) (v : α) :
    (insertA m k v).filter (fun e => decide (e.1 = k)) = [(k, v)] := by
  unfold insertA
  rw [List.filter_append, filter_key_eraseA]
  simp

theorem soc_insert (cfg : Config) (s : SState) (pin : Nat) (hpin : pin ∈ cfg.GPIO_PINS)
    (v : PinState) (hs : statesOnlyControllable cfg s) :
    ∀ p w, lookupA (insertA s.pin_states pin v) p = some w → p ∈ cfg.GPIO_PINS := by
  intro p w hw
  rw [lookupA_insertA] at hw
  by_cases hp : p = pin
  · subst hp; exact hpin
  · rw [if_neg hp] at hw
    exact hs p w hw

/-- `turn_pin_on` either leaves the state dict untouched or assigns `'on'`
to a pin it has verified to be controllable. -/
theorem turn_pin_on_states (cfg : Config) (drv : Driver) (s : SState) (pin : Nat)
    (d : Option Int) :
    (turn_pin_on cfg drv s pin d).2.pin_states = s.pin_states ∨
    (pin ∈ cfg.GPIO_PINS ∧
      (turn_pin_on cfg drv s pin d).2.pin_states = insertA s.pin_states pin PinState.on) := by
  by_cases h1 : pin ∈ cfg.GPIO_PINS
  · by_cases h2 : pin ∈ cfg.DENIED_PINS
    · left
      unfold turn_pin_on
      simp [h1, h2]
    · by_cases hok : (set_pin_core drv (cancel_existing_timer s pin) pin true).1 = true
      · right
        refine ⟨h1, ?_⟩
        rw [turn_pin_on_success_eq cfg drv s pin d h1 h2 hok]
        show (set_pin_core drv (cancel_existing_timer s pin) pin true).2.pin_states = _
        rw [set_pin_core_states_of_true drv (cancel_existing_timer s pin) pin true hok,
          cancel_existing_timer_states]
        rfl
      · left
        have hf : (set_pin_core drv (cancel_existing_timer s pin) pin true).1 = false := by
          simpa using hok
        unfold turn_pin_on
        simp only [h1, h2]
        simp [hf, set_pin_core_states_of_false drv (cancel_existing_timer s pin) pin true hf,
          cancel_existing_timer_states]
  · left
    unfold turn_pin_on
    simp [h1]

/-- `turn_pin_off` either leaves the state dict untouched or assigns `'off'`
to a controllable pin. -/
theorem turn_pin_off_states (cfg : Config) (drv : Driver) (s : SState) (pin : Nat) :
    (turn_pin_off cfg drv s pin).2.pin_states = s.pin_states ∨
    (pin ∈ cfg.GPIO_PINS ∧
      (turn_pin_off cfg drv s pin).2.pin_states = insertA s.pin_states pin PinState.off) := by
  by_cases h1 : pin ∈ cfg.GPIO_PINS
  · by_cases hok : (set_pin_core drv (cancel_existing_timer s pin) pin false).1 = true
    · right
      refine ⟨h1, ?_⟩
      rw [turn_pin_off_success_eq cfg drv s pin h1 hok]
      show (set_pin_core drv (cancel_existing_timer s pin) pin false).2.pin_states = _
      rw [set_pin_core_states_of_true drv (cancel_existing_timer s pin) pin false hok,
        cancel_existing_timer_states]
      rfl
    · left
      have hf : (set_pin_core drv (cancel_existing_timer s pin) pin false).1 = false := by
        simpa using hok
      unfold turn_pin_off
      simp only [h1]
      simp [hf, set_pin_core_states_of_false drv (cancel_existing_timer s pin) pin false hf,
        cancel_existing_timer_states]
  · left
    unfold turn_pin_off
    simp [h1]

/-- The fired auto-off body either leaves the state dict untouched or
assigns `'off'` to a controllable pin. -/
theorem auto_off_fire_states (cfg : Config) (drv : Driver) (s : SState) (pin : Nat) :
    (auto_off_fire cfg drv s pin).pin_states = s.pin_states ∨
    (pin ∈ cfg.GPIO_PINS ∧
      (auto_off_fire cfg drv s pin).pin_states = insertA s.pin_states pin PinState.off) := by
  unfold auto_off_fire set_pin
  by_cases h1 : pin ∈ cfg.GPIO_PINS
  · by_cases hok : (set_pin_core drv s pin false).1 = true
    · right
      refine ⟨h1, ?_⟩
      simp only [h1, if_pos]
      show (set_pin_core drv s pin false).2.pin_states = _
      rw [set_pin_core_states_of_true drv s pin false hok]
      rfl
    · left
      have hf : (set_pin_core drv s pin false).1 = false := by simpa using hok
      simp only [h1, if_pos]
      show (set_pin_core drv s pin false).2.pin_states = _
      rw [set_pin_core_states_of_false drv s pin false hf]
  · left
    simp [h1]

theorem estop_foldl_soc (cfg : Config) (drv : Driver) :
    ∀ (l : List Nat), (∀ p ∈ l, p ∈ cfg.GPIO_PINS) →
      ∀ acc : List Nat × SState, statesOnlyControllable cfg acc.2 →
        statesOnlyControllable cfg (l.foldl (estop_step drv) acc).2 := by
  intro l
  induction l with
  | nil => intro _ acc h; exact h
  | cons a l ih =>
      intro hl acc hacc
      rw [List.foldl_cons]
      apply ih (fun p hp => hl p (List.mem_cons_of_mem a hp))
      unfold estop_step
      by_cases h : get_pin_state acc.2 a = PinState.on
      · rw [if_pos h]
        by_cases hok : (set_pin_core drv acc.2 a false).1 = true
        · intro p w hw
          rw [set_pin_core_states_of_true drv acc.2 a false hok] at hw
          exact soc_insert cfg acc.2 a (hl a (List.mem_cons_self a l)) PinState.off hacc p w hw
        · intro p w hw
          rw [set_pin_core_states_of_false drv acc.2 a false (by simpa using hok)] at hw
          exact hacc p w hw
      · rw [if_neg h]
        exact hacc

theorem seedOff_mem (l : List Nat) (p : Nat) (v : PinState)
    (h : lookupA (seedOff l []) p = some v) : p ∈ l := by
  rw [lookupA_seedOff] at h
  by_cases hp : p ∈ l
  · exact hp
  · rw [if_neg hp] at h
    simp [lookupA] at h

theorem initState_soc (cfg : Config) (drv : Driver) :
    statesOnlyControllable cfg (initState cfg drv) := by
  intro p v hv
  unfold initState at hv
  by_cases hp : drv.has_pigpio = true
  · by_cases hd : drv.daemon_connected = true
    · rw [if_pos hp, if_pos hd] at hv
      have hv' : lookupA (initLoop drv cfg.GPIO_PINS [] []).1 p = some v := hv
      rcases initLoop_mem drv cfg.GPIO_PINS [] [] p v hv' with h | h
      · exact h
      · exact absurd h (by simp [lookupA])
    · rw [if_pos hp, if_neg hd] at hv
      exact absurd hv (by simp [emptyState, lookupA])
  · rw [if_neg hp] at hv
    exact seedOff_mem cfg.GPIO_PINS p v hv

theorem mem_get_all_pins_from_state (cfg : Config) (s : SState) :
    ∀ (l : List Nat) (i : Nat) (x : PinStatus),
      x ∈ get_all_pins_from cfg s i l → ∃ p, x.state = get_pin_state s p := by
  intro l
  induction l with
  | nil => intro i x hx; cases hx
  | cons a l ih =>
      intro i x hx
      rcases List.mem_cons.mp hx with h | h
      · exact ⟨a, by rw [h]⟩
      · exact ih (i + 1) x h

/-! ### Claims -/

/-- C7: for every pin outside the controllable list, both activate and
deactivate fail with NotFound (404) as the very first check — the returned
state is exactly the input state, so no denied-list check, driver call,
state change or timer change happens; a pin that is both non-controllable
and denied also gets NotFound, not Forbidden, since no denied hypothesis is
needed. -/
theorem C7_notfound_before_everything (cfg : Config) (drv : Driver) (s : SState)
    (pin : Nat) (d : Option Int) (h : pin ∉ cfg.GPIO_PINS) :
    turn_pin_on cfg drv s pin d = (Except.error ApiError.NotFound, s) ∧
    turn_pin_off cfg drv s pin = (Except.error ApiError.NotFound, s) := by
  constructor
  · unfold turn_pin_on
    simp [h]
  · unfold turn_pin_off
    simp [h]

/-- Witness for C7, at pin 2, which is denied but not controllable in the
default configuration: the result is NotFound, not Forbidden. -/
theorem C7_witness :
    2 ∈ defaultConfig.DENIED_PINS ∧
    turn_pin_on defaultConfig simDriver emptyState 2 none =
      (Except.error ApiError.NotFound, emptyState) ∧
    turn_pin_off defaultConfig simDriver emptyState 2 =
      (Except.error ApiError.NotFound, emptyState) :=
  ⟨by decide,
   (C7_notfound_before_everything defaultConfig simDriver emptyState 2 none (by decide)).1,
   (C7_notfound_before_everything defaultConfig simDriver emptyState 2 none (by decide)).2⟩

/-- C4: for a pin that is both controllable and denied, activate fails with
Forbidden (403) returning the input state untouched (no driver call, no
state or timer change), while deactivate performs no denied check and
succeeds whenever the driver write succeeds. -/
theorem C4_denied_asymmetry (cfg : Config) (drv : Driver) (s : SState) (pin : Nat)
    (d : Option Int) (h1 : pin ∈ cfg.GPIO_PINS) (h2 : pin ∈ cfg.DENIED_PINS)
    (hw : drv.connected = true → drv.writeOk pin false = true) :
    turn_pin_on cfg drv s pin d = (Except.error ApiError.Forbidden, s) ∧
    (turn_pin_off cfg drv s pin).1 = Except.ok
      { pin := pin, state := PinState.off, success := true
      , message := "Pin " ++ toString pin ++ " turned off" } := by
  constructor
  · unfold turn_pin_on
    simp [h1, h2]
  · rw [turn_pin_off_success_eq cfg drv s pin h1
      (set_pin_core_fst drv (cancel_existing_timer s pin) pin false hw)]

/-- Witness for C4, on a registry where pin 7 is both controllable and
denied. -/
theorem C4_witness :
    turn_pin_on testConfig simDriver emptyState 7 none =
      (Except.error ApiError.Forbidden, emptyState) ∧
    (turn_pin_off testConfig simDriver emptyState 7).1 = Except.ok
      { pin := 7, state := PinState.off, success := true
      , message := "Pin " ++ toString 7 ++ " turned off" } :=
  C4_denied_asymmetry testConfig simDriver emptyState 7 none (by decide) (by decide)
    (by decide)

/-- C9: when the backend is not connected (simulation mode), `set_pin`
succeeds for every level, and in consequence neither activate nor
deactivate can reach the DriverError (500) branch: each returns
NotFound, Forbidden (activate only) or a success response. -/
theorem C9_simulation_no_driver_error (cfg : Config) (drv : Driver) (s : SState)
    (pin : Nat) (d : Option Int) (h : drv.connected = false) :
    (∀ level, (set_pin_core drv s pin level).1 = true) ∧
    ((turn_pin_on cfg drv s pin d).1 = Except.error ApiError.NotFound ∨
     (turn_pin_on cfg drv s pin d).1 = Except.error ApiError.Forbidden ∨
     ∃ r, (turn_pin_on cfg drv s pin d).1 = Except.ok r) ∧
    ((turn_pin_off cfg drv s pin).1 = Except.error ApiError.NotFound ∨
     ∃ r, (turn_pin_off cfg drv s pin).1 = Except.ok r) := by
  have hw : ∀ (p : Nat) (level : Bool), drv.connected = true → drv.writeOk p level = true := by
    intro p level hc
    rw [hc] at h
    exact absurd h (by decide)
  refine ⟨fun level => set_pin_core_fst drv s pin level (hw pin level), ?_, ?_⟩
  · by_cases h1 : pin ∈ cfg.GPIO_PINS
    · by_cases h2 : pin ∈ cfg.DENIED_PINS
      · right; left
        unfold turn_pin_on
        simp [h1, h2]
      · right; right
        exact ⟨_, by
          rw [turn_pin_on_success_eq cfg drv s pin d h1 h2
            (set_pin_core_fst drv (cancel_existing_timer s pin) pin true (hw pin true))]⟩
    · left
      unfold turn_pin_on
      simp [h1]
  · by_cases h1 : pin ∈ cfg.GPIO_PINS
    · right
      exact ⟨_, by
        rw [turn_pin_off_success_eq cfg drv s pin h1
          (set_pin_core_fst drv (cancel_existing_timer s pin) pin false (hw pin false))]⟩
    · left
      unfold turn_pin_off
      simp [h1]

/-- Witness for C9 in the simulation environment at pin 12. -/
theorem C9_witness :
    (∀ level, (set_pin_core simDriver emptyState 12 level).1 = true) ∧
    ((turn_pin_on defaultConfig simDriver emptyState 12 (some 5)).1 =
        Except.error ApiError.NotFound ∨
     (turn_pin_on defaultConfig simDriver emptyState 12 (some 5)).1 =
        Except.error ApiError.Forbidden ∨
     ∃ r, (turn_pin_on defaultConfig simDriver emptyState 12 (some 5)).1 = Except.ok r) ∧
    ((turn_pin_off defaultConfig simDriver emptyState 12).1 =
        Except.error ApiError.NotFound ∨
     ∃ r, (turn_pin_off defaultConfig simDriver emptyState 12).1 = Except.ok r) :=
  C9_simulation_no_driver_error defaultConfig simDriver emptyState 12 (some 5) (by decide)

/-- C10: when a fired auto-off timer's driver set-false call fails, the pin
entry is still removed from the active-timer dict while the recorded state
stays `'on'`: the pin ends up on with no live schedule. -/
theorem C10_fired_timer_driver_failure (cfg : Config) (drv : Driver) (s : SState)
    (pin : Nat) (h1 : pin ∈ cfg.GPIO_PINS) (hc : drv.connected = true)
    (hw : drv.writeOk pin false = false) (hon : get_pin_state s pin = PinState.on) :
    get_pin_state (auto_off_fire cfg drv s pin) pin = PinState.on ∧
    lookupA (auto_off_fire cfg drv s pin).active_timers pin = none := by
  have hf : (set_pin_core drv s pin false).1 = false := by
    rw [set_pin_core_fail drv s pin false hc hw]
  constructor
  · unfold auto_off_fire set_pin
    rw [if_pos h1]
    show get_pin_state
      { (set_pin_core drv s pin false).2 with
        active_timers := eraseA (set_pin_core drv s pin false).2.active_timers pin } pin =
      PinState.on
    unfold get_pin_state
    show (lookupA (set_pin_core drv s pin false).2.pin_states pin).getD PinState.off = _
    rw [set_pin_core_states_of_false drv s pin false hf]
    exact hon
  · unfold auto_off_fire set_pin
    rw [if_pos h1]
    show lookupA (eraseA (set_pin_core drv s pin false).2.active_timers pin) pin = none
    rw [lookupA_eraseA]
    simp

/-- Witness for C10: pin 12 is on with a live timer, hardware connected,
and the write fails. -/
theorem C10_witness :
    get_pin_state (auto_off_fire defaultConfig (failDriver 12 false) stateOn12 12) 12 =
      PinState.on ∧
    lookupA (auto_off_fire defaultConfig (failDriver 12 false) stateOn12 12).active_timers
      12 = none :=
  C10_fired_timer_driver_failure defaultConfig (failDriver 12 false) stateOn12 12
    (by decide) (by decide) (by decide) (by decide)

/-- C8: the full pin listing has one entry per controllable pin in list
order; the i-th entry carries the i-th controllable pin as id, the
positional name "Zone i+1", enabled exactly when the pin is not denied, and
the stored state (off when no entry exists in the state dict). -/
theorem C8_pin_listing (cfg : Config) (s : SState) :
    (get_all_pins cfg s).length = cfg.GPIO_PINS.length ∧
    ∀ i pin, cfg.GPIO_PINS.get? i = some pin →
      (get_all_pins cfg s).get? i = some
        { id := pin
        , name := "Zone " ++ toString (i + 1)
        , enabled := !(cfg.DENIED_PINS.contains pin)
        , state := (lookupA s.pin_states pin).getD PinState.off } := by
  constructor
  · unfold get_all_pins
    exact length_get_all_pins_from cfg s 0 cfg.GPIO_PINS
  · intro i pin h
    unfold get_all_pins
    rw [get?_get_all_pins_from cfg s cfg.GPIO_PINS 0 i, h]
    have h0 : 0 + i + 1 = i + 1 := by omega
    simp [h0, get_pin_state]

/-- Witness for C8: index 1 of the default configuration is pin 16, zone 2. -/
theorem C8_witness :
    (get_all_pins defaultConfig emptyState).get? 1 = some
      { id := 16
      , name := "Zone " ++ toString (1 + 1)
      , enabled := !(defaultConfig.DENIED_PINS.contains 16)
      , state := (lookupA emptyState.pin_states 16).getD PinState.off } :=
  (C8_pin_listing defaultConfig emptyState).2 1 16 rfl

/-- C5: the effective auto-off duration is the requested value when present
and strictly positive, and 10 when absent, zero or negative; no upper bound
is applied (the first conjunct holds for every positive value); a successful
activation reports the effective duration in its message and installs a
timer carrying exactly that duration. -/
theorem C5_duration_normalization (cfg : Config) (drv : Driver) (s : SState)
    (pin : Nat) (d : Option Int) (h1 : pin ∈ cfg.GPIO_PINS) (h2 : pin ∉ cfg.DENIED_PINS)
    (hw : drv.connected = true → drv.writeOk pin true = true) :
    (∀ v : Int, 0 < v → normalizeDuration (some v) = v) ∧
    normalizeDuration none = 10 ∧
    (∀ v : Int, v ≤ 0 → normalizeDuration (some v) = 10) ∧
    (turn_pin_on cfg drv s pin d).1 = Except.ok
      { pin := pin, state := PinState.on, success := true
      , message := "Pin " ++ toString pin ++ " turned on for " ++
          toString (normalizeDuration d) ++ " minutes" } ∧
    (∃ t : Timer, lookupA (turn_pin_on cfg drv s pin d).2.active_timers pin = some t ∧
      t.duration = normalizeDuration d) := by
  have hok : (set_pin_core drv (cancel_existing_timer s pin) pin true).1 = true :=
    set_pin_core_fst drv (cancel_existing_timer s pin) pin true hw
  have e := turn_pin_on_success_eq cfg drv s pin d h1 h2 hok
  refine ⟨?_, rfl, ?_, by rw [e], ?_⟩
  · intro v hv
    show (if 0 < v then v else 10) = v
    rw [if_pos hv]
  · intro v hv
    show (if 0 < v then v else 10) = (10 : Int)
    rw [if_neg (by omega)]
  · refine ⟨{ taskId := (set_pin_core drv (cancel_existing_timer s pin) pin true).2.nextId
            , duration := normalizeDuration d }, ?_, rfl⟩
    rw [e]
    show lookupA
      (insertA (set_pin_core drv (cancel_existing_timer s pin) pin true).2.active_timers pin
        { taskId := (set_pin_core drv (cancel_existing_timer s pin) pin true).2.nextId
        , duration := normalizeDuration d }) pin = _
    rw [lookupA_insertA]
    simp

/-- Witness for C5: simulation mode, pin 12, requested duration 240: the
effective duration is 240 (no upper bound). -/
theorem C5_witness :
    (∀ v : Int, 0 < v → normalizeDuration (some v) = v) ∧
    normalizeDuration none = 10 ∧
    (∀ v : Int, v ≤ 0 → normalizeDuration (some v) = 10) ∧
    (turn_pin_on defaultConfig simDriver emptyState 12 (some 240)).1 = Except.ok
      { pin := 12, state := PinState.on, success := true
      , message := "Pin " ++ toString 12 ++ " turned on for " ++
          toString (normalizeDuration (some 240)) ++ " minutes" } ∧
    (∃ t : Timer,
      lookupA (turn_pin_on defaultConfig simDriver emptyState 12 (some 240)).2.active_timers
        12 = some t ∧ t.duration = normalizeDuration (some 240)) :=
  C5_duration_normalization defaultConfig simDriver emptyState 12 (some 240)
    (by decide) (by decide) (by decide)

/-- C2 (amended): when the driver write fails during activation of a
controllable, non-denied pin, the handler raises DriverError (500) and the
pin-state dict is unchanged, but the timer map is NOT untouched: any
pre-existing schedule for the pin was already cancelled and removed before
the driver call, so no live schedule remains for the pin. -/
theorem C2_activate_driver_failure (cfg : Config) (drv : Driver) (s : SState)
    (pin : Nat) (d : Option Int) (h1 : pin ∈ cfg.GPIO_PINS) (h2 : pin ∉ cfg.DENIED_PINS)
    (hc : drv.connected = true) (hwf : drv.writeOk pin true = false) :
    (turn_pin_on cfg drv s pin d).1 = Except.error ApiError.DriverError ∧
    (turn_pin_on cfg drv s pin d).2.pin_states = s.pin_states ∧
    lookupA (turn_pin_on cfg drv s pin d).2.active_timers pin = none ∧
    (∀ t : Timer, lookupA s.active_timers pin = some t →
      t.taskId ∈ (turn_pin_on cfg drv s pin d).2.cancelled) := by
  have e := turn_pin_on_fail_eq cfg drv s pin d h1 h2 hc hwf
  refine ⟨by rw [e], ?_, ?_, ?_⟩
  · rw [e]
    show (cancel_existing_timer s pin).pin_states = s.pin_states
    exact cancel_existing_timer_states s pin
  · rw [e]
    show lookupA (cancel_existing_timer s pin).active_timers pin = none
    rw [cancel_existing_timer_timers, lookupA_eraseA]
    simp
  · intro t ht
    rw [e]
    show t.taskId ∈ (cancel_existing_timer s pin).cancelled
    rw [cancel_existing_timer_cancelled_of_some s pin t ht]
    exact List.mem_append_right _ (by simp)

/-- Witness for C2: pin 12 has a live schedule, the hardware write for
(12, on) fails; the DriverError path leaves the state dict intact but the
schedule is gone and its task cancelled. -/
theorem C2_witness :
    (turn_pin_on defaultConfig (failDriver 12 true) stateTimer12 12 (some 5)).1 =
      Except.error ApiError.DriverError ∧
    (turn_pin_on defaultConfig (failDriver 12 true) stateTimer12 12 (some 5)).2.pin_states =
      stateTimer12.pin_states ∧
    lookupA (turn_pin_on defaultConfig (failDriver 12 true) stateTimer12 12
      (some 5)).2.active_timers 12 = none ∧
    (∀ t : Timer, lookupA stateTimer12.active_timers 12 = some t →
      t.taskId ∈ (turn_pin_on defaultConfig (failDriver 12 true) stateTimer12 12
        (some 5)).2.cancelled) :=
  C2_activate_driver_failure defaultConfig (failDriver 12 true) stateTimer12 12 (some 5)
    (by decide) (by decide) (by decide) (by decide)

/-- Counterexample to C2 as stated: the claim says a pre-existing live
schedule is still live after the DriverError, but at this concrete input
the schedule (task 0 on pin 12) has been removed from the timer map and its
task cancelled before the failing driver call. -/
theorem C2_counterexample :
    lookupA stateTimer12.active_timers 12 = some { taskId := 0, duration := 5 } ∧
    (turn_pin_on defaultConfig (failDriver 12 true) stateTimer12 12 (some 5)).1 =
      Except.error ApiError.DriverError ∧
    lookupA (turn_pin_on defaultConfig (failDriver 12 true) stateTimer12 12
      (some 5)).2.active_timers 12 = none ∧
    0 ∈ (turn_pin_on defaultConfig (failDriver 12 true) stateTimer12 12
      (some 5)).2.cancelled := by
  refine ⟨rfl, rfl, rfl, ?_⟩
  decide

/-- C3: activating a controllable, non-denied pin twice in succession with
durations D1 then D2 (driver succeeding) leaves exactly one binding for the
pin in the timer map, carrying duration D2, while the timer installed by the
first activation has been cancelled (its task id is in the cancelled set, so
its post-sleep body never runs). -/
theorem C3_last_activate_wins (cfg : Config) (drv : Driver) (s : SState) (pin : Nat)
    (D1 D2 : Int) (h1 : pin ∈ cfg.GPIO_PINS) (h2 : pin ∉ cfg.DENIED_PINS)
    (hw : drv.connected = true → drv.writeOk pin true = true) (hD2 : 0 < D2) :
    (∃ a, (turn_pin_on cfg drv s pin (some D1)).1 = Except.ok a) ∧
    (∃ b, (turn_pin_on cfg drv (turn_pin_on cfg drv s pin (some D1)).2 pin
      (some D2)).1 = Except.ok b) ∧
    (∃ t1 : Timer,
      lookupA (turn_pin_on cfg drv s pin (some D1)).2.active_timers pin = some t1 ∧
      t1.duration = normalizeDuration (some D1) ∧
      t1.taskId ∈ (turn_pin_on cfg drv (turn_pin_on cfg drv s pin (some D1)).2 pin
        (some D2)).2.cancelled) ∧
    (∃ t2 : Timer,
      ((turn_pin_on cfg drv (turn_pin_on cfg drv s pin (some D1)).2 pin
        (some D2)).2.active_timers.filter (fun e => decide (e.1 = pin))) = [(pin, t2)] ∧
      t2.duration = D2) := by
  have hok1 : (set_pin_core drv (cancel_existing_timer s pin) pin true).1 = true :=
    set_pin_core_fst drv (cancel_existing_timer s pin) pin true hw
  have e1 := turn_pin_on_success_eq cfg drv s pin (some D1) h1 h2 hok1
  have hok2 : (set_pin_core drv
      (cancel_existing_timer (turn_pin_on cfg drv s pin (some D1)).2 pin) pin true).1 =
      true :=
    set_pin_core_fst drv _ pin true hw
  have e2 := turn_pin_on_success_eq cfg drv (turn_pin_on cfg drv s pin (some D1)).2 pin
    (some D2) h1 h2 hok2
  have ht1 : lookupA (turn_pin_on cfg drv s pin (some D1)).2.active_timers pin = some
      { taskId := (set_pin_core drv (cancel_existing_timer s pin) pin true).2.nextId
      , duration := normalizeDuration (some D1) } := by
    rw [e1]
    show lookupA
      (insertA (set_pin_core drv (cancel_existing_timer s pin) pin true).2.active_timers
        pin
        { taskId := (set_pin_core drv (cancel_existing_timer s pin) pin true).2.nextId
        , duration := normalizeDuration (some D1) }) pin = _
    rw [lookupA_insertA]
    simp
  refine ⟨⟨_, by rw [e1]⟩, ⟨_, by rw [e2]⟩, ?_, ?_⟩
  · refine ⟨{ taskId := (set_pin_core drv (cancel_existing_timer s pin) pin true).2.nextId
            , duration := normalizeDuration (some D1) }, ht1, rfl, ?_⟩
    rw [e2]
    show _ ∈ (set_pin_core drv
      (cancel_existing_timer (turn_pin_on cfg drv s pin (some D1)).2 pin) pin true).2.cancelled
    rw [set_pin_core_cancelled,
      cancel_existing_timer_cancelled_of_some (turn_pin_on cfg drv s pin (some D1)).2 pin _
        ht1]
    exact List.mem_append_right _ (by simp)
  · refine ⟨⟨(set_pin_core drv (cancel_existing_timer (turn_pin_on cfg drv s pin (some D1)).2 pin) pin true).2.nextId, normalizeDuration (some D2)⟩, ?_, ?_⟩
    · rw [e2]
      show (insertA (set_pin_core drv (cancel_existing_timer (turn_pin_on cfg drv s pin (some D1)).2 pin) pin true).2.active_timers pin _).filter (fun e => decide (e.1 = pin)) = _
      exact filter_key_insertA _ pin _
    · show (if 0 < D2 then D2 else 10) = D2
      rw [if_pos hD2]

/-- Witness for C3: simulation mode, pin 12 activated with durations 3 then
7 from the empty state. -/
theorem C3_witness :
    (∃ a, (turn_pin_on defaultConfig simDriver emptyState 12 (some 3)).1 =
      Except.ok a) ∧
    (∃ b, (turn_pin_on defaultConfig simDriver
      (turn_pin_on defaultConfig simDriver emptyState 12 (some 3)).2 12
      (some 7)).1 = Except.ok b) ∧
    (∃ t1 : Timer,
      lookupA (turn_pin_on defaultConfig simDriver emptyState 12
        (some 3)).2.active_timers 12 = some t1 ∧
      t1.duration = normalizeDuration (some 3) ∧
      t1.taskId ∈ (turn_pin_on defaultConfig simDriver
        (turn_pin_on defaultConfig simDriver emptyState 12 (some 3)).2 12
        (some 7)).2.cancelled) ∧
    (∃ t2 : Timer,
      ((turn_pin_on defaultConfig simDriver
        (turn_pin_on defaultConfig simDriver emptyState 12 (some 3)).2 12
        (some 7)).2.active_timers.filter (fun e => decide (e.1 = 12))) = [(12, t2)] ∧
      t2.duration = 7) :=
  C3_last_activate_wins defaultConfig simDriver emptyState 12 3 7 (by decide) (by decide)
    (by decide) (by decide)

/-- C1 (amended): the emergency-stop sweep returns exactly the pins that
were recorded on when it ran — in list order and regardless of the per-pin
driver outcome, so a pin whose set-false call fails still appears in the
list — while that pin's recorded state stays on, the timer dict is cleared
and every previously live task is cancelled. -/
theorem C1_emergency_stop_sweep (cfg : Config) (drv : Driver) (s : SState)
    (hnd : cfg.GPIO_PINS.Nodup) :
    (emergency_stop cfg drv s).1 =
      cfg.GPIO_PINS.filter (fun p => decide (get_pin_state s p = PinState.on)) ∧
    (emergency_stop cfg drv s).2.active_timers = [] ∧
    (∀ e ∈ s.active_timers, e.2.taskId ∈ (emergency_stop cfg drv s).2.cancelled) ∧
    (∀ p ∈ cfg.GPIO_PINS, get_pin_state s p = PinState.on → drv.connected = true →
      drv.writeOk p false = false →
      get_pin_state (emergency_stop cfg drv s).2 p = PinState.on) := by
  refine ⟨?_, ?_, ?_, ?_⟩
  · exact estop_foldl_fst drv cfg.GPIO_PINS hnd [] _
  · exact estop_foldl_timers drv cfg.GPIO_PINS _
  · intro e he
    show e.2.taskId ∈ (cfg.GPIO_PINS.foldl (estop_step drv) _).2.cancelled
    rw [estop_foldl_cancelled]
    exact List.mem_append_right _ (List.mem_map_of_mem _ he)
  · intro p hp hon hc hw
    exact estop_foldl_fail_on drv hc cfg.GPIO_PINS hnd [] _ p hp hon hw

/-- Witness for C1 (amended): two pins on, the write for pin 16 failing;
the sweep lists both pins, clears the timers, and pin 16 stays on. -/
theorem C1_witness :
    (emergency_stop defaultConfig (failDriver 16 false) stateTwoOn).1 =
      defaultConfig.GPIO_PINS.filter
        (fun p => decide (get_pin_state stateTwoOn p = PinState.on)) ∧
    (emergency_stop defaultConfig (failDriver 16 false) stateTwoOn).2.active_timers = [] ∧
    get_pin_state (emergency_stop defaultConfig (failDriver 16 false) stateTwoOn).2 16 =
      PinState.on :=
  ⟨(C1_emergency_stop_sweep defaultConfig (failDriver 16 false) stateTwoOn (by decide)).1,
   (C1_emergency_stop_sweep defaultConfig (failDriver 16 false) stateTwoOn (by decide)).2.1,
   (C1_emergency_stop_sweep defaultConfig (failDriver 16 false) stateTwoOn
     (by decide)).2.2.2 16 (by decide) (by decide) (by decide) (by decide)⟩

/-- Counterexample to C1 as stated: with N = 2 pins on (12 and 16) and the
driver failing exactly for pin 16's set-false, the stopped list still has
size 2 and contains the failing pin — not size N-1 = 1 as the claim says —
while pin 16's recorded state stays on. -/
theorem C1_counterexample :
    defaultConfig.GPIO_PINS.filter
      (fun p => decide (get_pin_state stateTwoOn p = PinState.on)) = [12, 16] ∧
    (failDriver 16 false).writeOk 16 false = false ∧
    (emergency_stop defaultConfig (failDriver 16 false) stateTwoOn).1 = [12, 16] ∧
    (emergency_stop defaultConfig (failDriver 16 false) stateTwoOn).1.length = 2 ∧
    get_pin_state (emergency_stop defaultConfig (failDriver 16 false) stateTwoOn).2 16 =
      PinState.on :=
  ⟨rfl, rfl, rfl, rfl, rfl⟩

/-- C6 (amended): start-up seeds every controllable pin off provided pigpio
is absent (simulation) or the daemon connection succeeded and none of the
seeding writes raised — a raising seed write aborts the loop, leaving later
pins unseeded, and a failed daemon connection seeds nothing; reading any
pin's state right after start-up gives off in every case (the off-default
covers the unseeded paths); no handler or timer firing ever creates a state
entry for a pin outside the controllable list; and the full listing taken
right after start-up shows every entry off. -/
theorem C6_initial_seeding_and_key_invariant (cfg : Config) (drv : Driver) :
    ((drv.has_pigpio = false ∨
        (drv.daemon_connected = true ∧ ∀ p ∈ cfg.GPIO_PINS, drv.writeOk p false = true)) →
      ∀ pin ∈ cfg.GPIO_PINS,
        lookupA (initState cfg drv).pin_states pin = some PinState.off) ∧
    (∀ pin, get_pin_state (initState cfg drv) pin = PinState.off) ∧
    statesOnlyControllable cfg (initState cfg drv) ∧
    (∀ s pin d, statesOnlyControllable cfg s →
      statesOnlyControllable cfg (turn_pin_on cfg drv s pin d).2) ∧
    (∀ s pin, statesOnlyControllable cfg s →
      statesOnlyControllable cfg (turn_pin_off cfg drv s pin).2) ∧
    (∀ s, statesOnlyControllable cfg s →
      statesOnlyControllable cfg (emergency_stop cfg drv s).2) ∧
    (∀ s pin, statesOnlyControllable cfg s →
      statesOnlyControllable cfg (auto_off_fire cfg drv s pin)) ∧
    (∀ x ∈ get_all_pins cfg (initState cfg drv), x.state = PinState.off) := by
  refine ⟨?_, get_pin_state_initState cfg drv, initState_soc cfg drv, ?_, ?_, ?_, ?_, ?_⟩
  · intro h pin hpin
    rw [initState_states_of_seeded cfg drv h, lookupA_seedOff]
    rw [if_pos hpin]
  · intro s pin d hs
    rcases turn_pin_on_states cfg drv s pin d with h | ⟨hpin, h⟩
    · intro p v hv
      rw [h] at hv
      exact hs p v hv
    · intro p v hv
      rw [h] at hv
      exact soc_insert cfg s pin hpin PinState.on hs p v hv
  · intro s pin hs
    rcases turn_pin_off_states cfg drv s pin with h | ⟨hpin, h⟩
    · intro p v hv
      rw [h] at hv
      exact hs p v hv
    · intro p v hv
      rw [h] at hv
      exact soc_insert cfg s pin hpin PinState.off hs p v hv
  · intro s hs
    exact estop_foldl_soc cfg drv cfg.GPIO_PINS (fun p hp => hp) _ hs
  · intro s pin hs
    rcases auto_off_fire_states cfg drv s pin with h | ⟨hpin, h⟩
    · intro p v hv
      rw [h] at hv
      exact hs p v hv
    · intro p v hv
      rw [h] at hv
      exact soc_insert cfg s pin hpin PinState.off hs p v hv
  · intro x hx
    obtain ⟨p, hp⟩ :=
      mem_get_all_pins_from_state cfg (initState cfg drv) cfg.GPIO_PINS 0 x hx
    rw [hp, get_pin_state_initState]

/-- Witness for C6 (amended): simulation start-up seeds pin 12 off,
connected start-up with all writes succeeding also seeds pin 12 off, the
state read is off, and activating pin 12 afterwards keeps every state key
controllable. -/
theorem C6_witness :
    lookupA (initState defaultConfig simDriver).pin_states 12 = some PinState.off ∧
    lookupA (initState defaultConfig hwDriver).pin_states 12 = some PinState.off ∧
    get_pin_state (initState defaultConfig simDriver) 12 = PinState.off ∧
    statesOnlyControllable defaultConfig
      (turn_pin_on defaultConfig simDriver (initState defaultConfig simDriver) 12
        (some 5)).2 :=
  ⟨(C6_initial_seeding_and_key_invariant defaultConfig simDriver).1 (Or.inl rfl) 12
     (by decide),
   (C6_initial_seeding_and_key_invariant defaultConfig hwDriver).1
     (Or.inr ⟨rfl, by decide⟩) 12 (by decide),
   (C6_initial_seeding_and_key_invariant defaultConfig simDriver).2.1 12,
   (C6_initial_seeding_and_key_invariant defaultConfig simDriver).2.2.2.1
     (initState defaultConfig simDriver) 12 (some 5)
     ((C6_initial_seeding_and_key_invariant defaultConfig simDriver).2.2.1)⟩

/-- Counterexample to C6 as stated: when pigpio imports but the daemon
connection fails, start-up completes without seeding anything, so
controllable pin 12 has no state entry at all. -/
theorem C6_counterexample :
    12 ∈ defaultConfig.GPIO_PINS ∧
    lookupA (initState defaultConfig noSeedDriver).pin_states 12 = none :=
  ⟨by decide, rfl⟩

end Sprink
